import Mathlib

/-!
# Verification of the recommendation engine of the movie-catalog backend

This file is a shallow embedding of the recommendation subsystem:
`recommendations/views.py` (the five ranking strategies of
`RecommendationEngine`, the `UserRecommendationsView` handler and the
`SimilarMoviesView` handler), `ratings/models.py` (the `Rating`,
`Favorite` and `WatchHistory` models) and
`movie_recommendation_project/cache_utils.py` (cache keys, `cached_query`
and the invalidation signal handlers).

Conventions of the embedding:
* Database rows become Lean structures; a `DB` value is one data-store
  snapshot, lists keep the store's iteration order.
* Django querysets become list pipelines: `filter`/`exclude` become
  `List.filter`, `order_by` becomes a stable sort (`List.insertionSort`
  via `sortDesc`) on a lexicographic key, `[:n]` becomes `List.take n`.
* Scores are `ℚ` (the code compares and averages exact decimals).
* The engine's ORM references to a `Rating` field spelled `rating`
  (`rating__gte=4`, `Avg('ratings__rating')`, `r.rating`) are interpreted
  against the single numeric field the `Rating` model actually declares,
  which `ratings/models.py` names `score`.  The name mismatch itself is
  modelled separately (`ratingFieldNames`, the `..._dj` wrappers): Django
  resolves field names by string, so each of those references raises, and
  the wrappers return the corresponding error.
* The `reason` display string of a recommendation entry is not modelled;
  no property below concerns it.
-/

/-- A row of the `movies_movie` table, restricted to the columns the
recommendation engine reads.  `genres` and `tags` are the id sets of the
many-to-many relations; `year` is `release_date.year`. -/
structure Movie where
  id : Nat
  imdb_rating : ℚ
  popularity_score : ℚ
  genres : List Nat
  tags : List Nat
  year : Nat
  deriving DecidableEq

/-- A row of the `ratings` table (`ratings/models.py`, class `Rating`).
The numeric column is named `score` there ("Rating score (0.5-5.0 stars)"). -/
structure RatingRec where
  user : Nat
  movie : Nat
  score : ℚ
  deriving DecidableEq

/-- A row of the `favorites` table (`ratings/models.py`, class `Favorite`). -/
structure FavoriteRec where
  user : Nat
  movie : Nat
  deriving DecidableEq

/-- One data-store snapshot. -/
structure DB where
  movies : List Movie
  ratings : List RatingRec
  favorites : List FavoriteRec
  deriving DecidableEq

/-- A recommendation entry: the dict
`{'movie': ..., 'score': ..., 'reason': ..., 'algorithm': ...}` built by
the strategies (`reason` omitted, see the file comment). -/
structure Rec where
  movie : Movie
  score : ℚ
  algorithm : String
  deriving DecidableEq

/-- `Movie.objects.get(id=mid)`.  The code only looks up ids coming from
rating rows; when `mid` is absent the placeholder keeps `id = mid` (the
original raises `DoesNotExist` there, a case no property below reaches
on a well-formed store). -/
def getMovie (db : DB) (mid : Nat) : Movie :=
  (db.movies.find? (fun m => decide (m.id = mid))).getD
    { id := mid, imdb_rating := 0, popularity_score := 0, genres := [], tags := [], year := 0 }

/-- The `ratings` related manager of a movie: all rating rows for it. -/
def movieRatings (db : DB) (m : Movie) : List RatingRec :=
  db.ratings.filter (fun r => decide (r.movie = m.id))

/-- `Avg('ratings__rating')`: SQL `AVG` is `NULL` on an empty group;
`⊥` models `NULL`, which the descending `order_by` puts last. -/
def avgRating (db : DB) (m : Movie) : WithBot ℚ :=
  let rs := movieRatings db m
  if rs.isEmpty then ⊥ else (((rs.map (fun r => r.score)).sum / rs.length : ℚ) : WithBot ℚ)

/-- Sort key of `.order_by('-popularity_score', '-avg_rating')`. -/
def popKey (db : DB) (m : Movie) : ℚ ×ₗ WithBot ℚ :=
  toLex (m.popularity_score, avgRating db m)

/-- Stable descending sort on a key: Django's `order_by` on a snapshot /
Python's stable `sort(reverse=True)`. -/
def sortDesc {α : Type} {β : Type} [LinearOrder β] (k : α → β) (l : List α) : List α :=
  List.insertionSort (fun a b => k b ≤ k a) l

theorem sortDesc_perm {α β : Type} [LinearOrder β] (k : α → β) (l : List α) :
    List.Perm (sortDesc k l) l :=
  List.perm_insertionSort _ l

theorem sortDesc_sorted {α β : Type} [LinearOrder β] (k : α → β) (l : List α) :
    (sortDesc k l).Pairwise (fun a b => k b ≤ k a) := by
  haveI : IsTotal α (fun a b => k b ≤ k a) := ⟨fun a b => le_total (k b) (k a)⟩
  haveI : IsTrans α (fun a b => k b ≤ k a) := ⟨fun _ _ _ hab hbc => le_trans hbc hab⟩
  exact List.sorted_insertionSort _ l

theorem mem_sortDesc {α β : Type} [LinearOrder β] {k : α → β} {l : List α} {a : α} :
    a ∈ sortDesc k l ↔ a ∈ l :=
  (sortDesc_perm k l).mem_iff

/-- The queryset shape shared by the movie-ranking queries:
`filter(...).order_by(...)[:limit]`. -/
def moviePipeline {β : Type} [LinearOrder β] (db : DB) (p : Movie → Bool)
    (k : Movie → β) (limit : Nat) : List Movie :=
  (sortDesc k (db.movies.filter p)).take limit

theorem moviePipeline_length {β : Type} [LinearOrder β] (db : DB) (p : Movie → Bool)
    (k : Movie → β) (limit : Nat) : (moviePipeline db p k limit).length ≤ limit := by
  simp [moviePipeline]

theorem moviePipeline_mem {β : Type} [LinearOrder β] {db : DB} {p : Movie → Bool}
    {k : Movie → β} {limit : Nat} {m : Movie} :
    m ∈ moviePipeline db p k limit → m ∈ db.movies ∧ p m = true := by
  intro h
  have hm := mem_sortDesc.mp (List.mem_of_mem_take h)
  exact ⟨(List.mem_filter.mp hm).1, (List.mem_filter.mp hm).2⟩

theorem moviePipeline_nodup {β : Type} [LinearOrder β] {db : DB}
    (hdb : (db.movies.map (fun m => m.id)).Nodup) (p : Movie → Bool)
    (k : Movie → β) (limit : Nat) :
    ((moviePipeline db p k limit).map (fun m => m.id)).Nodup := by
  have h1 : ((db.movies.filter p).map (fun m => m.id)).Nodup :=
    hdb.sublist ((List.filter_sublist _).map _)
  have h2 := ((sortDesc_perm k _).map (fun m : Movie => m.id)).nodup_iff.mpr h1
  exact h2.sublist ((List.take_sublist _ _).map _)

theorem moviePipeline_sorted {β : Type} [LinearOrder β] (db : DB) (p : Movie → Bool)
    (k : Movie → β) (limit : Nat) :
    (moviePipeline db p k limit).Pairwise (fun a b => k b ≤ k a) :=
  (sortDesc_sorted k _).sublist (List.take_sublist limit _)

/-- `RecommendationEngine.popularity_based` (views.py lines 57-80):
movies with at least one rating and `imdb_rating ≥ min_rating`, ordered
by popularity then average rating, truncated to `limit`; each entry is
scored by the movie's `popularity_score`. -/
def popularity_based (db : DB) (limit : Nat) (min_rating : ℚ) : List Rec :=
  (moviePipeline db
    (fun m => decide (1 ≤ (movieRatings db m).length ∧ min_rating ≤ m.imdb_rating))
    (popKey db) limit).map
    (fun m => { movie := m, score := m.popularity_score, algorithm := "popularity" })

theorem popularity_based_length (db : DB) (limit : Nat) (mr : ℚ) :
    (popularity_based db limit mr).length ≤ limit := by
  simpa [popularity_based] using moviePipeline_length db _ (popKey db) limit

theorem popularity_based_mem {db : DB} {limit : Nat} {mr : ℚ} {r : Rec} :
    r ∈ popularity_based db limit mr →
      mr ≤ r.movie.imdb_rating ∧ r.movie ∈ db.movies ∧
      r.score = r.movie.popularity_score := by
  intro h
  simp only [popularity_based, List.mem_map] at h
  obtain ⟨m, hm, rfl⟩ := h
  have hm' := moviePipeline_mem hm
  simp only [decide_eq_true_eq] at hm'
  exact ⟨hm'.2.2, hm'.1, rfl⟩

theorem popularity_based_nodup {db : DB}
    (hdb : (db.movies.map (fun m => m.id)).Nodup) (limit : Nat) (mr : ℚ) :
    ((popularity_based db limit mr).map (fun r => r.movie.id)).Nodup := by
  simpa [popularity_based, List.map_map, Function.comp] using
    moviePipeline_nodup hdb _ (popKey db) limit

theorem popularity_based_scores_sorted (db : DB) (limit : Nat) (mr : ℚ) :
    ((popularity_based db limit mr).map (fun r => r.score)).Pairwise (fun a b => b ≤ a) := by
  simp only [popularity_based, List.map_map, List.pairwise_map]
  refine (moviePipeline_sorted db _ (popKey db) limit).imp ?_
  intro a b hab
  have := Prod.Lex.monotone_fst _ _ hab
  simpa [popKey] using this

/-- One `Counter` update `c[k] += v` (insertion order preserved, as in
Python's `collections.Counter`). -/
def counterAdd (c : List (Nat × ℚ)) (k : Nat) (v : ℚ) : List (Nat × ℚ) :=
  if c.any (fun p => decide (p.1 = k)) then
    c.map (fun p => if p.1 = k then (p.1, p.2 + v) else p)
  else c ++ [(k, v)]

/-- `Rating.objects.filter(user=user, rating__gte=4)` (the engine's
spelling of the score field; see the file comment). -/
def userHighRatings (db : DB) (u : Nat) : List RatingRec :=
  db.ratings.filter (fun r => decide (r.user = u ∧ 4 ≤ r.score))

/-- `Rating.objects.filter(user=user)`. -/
def userRatings (db : DB) (u : Nat) : List RatingRec :=
  db.ratings.filter (fun r => decide (r.user = u))

/-- `Favorite.objects.filter(user=user)`. -/
def userFavorites (db : DB) (u : Nat) : List FavoriteRec :=
  db.favorites.filter (fun f => decide (f.user = u))

/-- The `genre_scores` Counter of `genre_based` (views.py lines 94-103):
each rating ≥ 4 adds its score to every genre of its movie, each
favorite adds a fixed 5. -/
def genreScores (db : DB) (u : Nat) : List (Nat × ℚ) :=
  let c1 := (userHighRatings db u).foldl
    (fun c r => ((getMovie db r.movie).genres).foldl (fun c g => counterAdd c g r.score) c) []
  (userFavorites db u).foldl
    (fun c f => ((getMovie db f.movie).genres).foldl (fun c g => counterAdd c g 5) c) c1

/-- `genre_scores.most_common(5)` keys: stable sort by accumulated weight,
descending, first five. -/
def topGenres (db : DB) (u : Nat) : List Nat :=
  ((sortDesc (fun p : Nat × ℚ => p.2) (genreScores db u)).take 5).map (fun p => p.1)

/-- `RecommendationEngine.genre_based` (views.py lines 82-136).  Anonymous
users fall back to popularity; so does a user with an empty genre Counter.
Otherwise: movies of the top genres, with `imdb_rating ≥ min_rating`,
excluding the movies the user rated ≥ 4 or favorited (the code builds
`rated_movie_ids` from the already-filtered `user_ratings` queryset),
ordered by popularity then average rating. -/
def genre_based (db : DB) (user : Option Nat) (limit : Nat) (min_rating : ℚ) : List Rec :=
  match user with
  | none => popularity_based db limit min_rating
  | some u =>
    if genreScores db u = [] then popularity_based db limit min_rating
    else
      let top := topGenres db u
      let excluded := (userHighRatings db u).map (fun r => r.movie) ++
        (userFavorites db u).map (fun f => f.movie)
      (moviePipeline db
        (fun m => decide ((∃ g ∈ m.genres, g ∈ top) ∧ min_rating ≤ m.imdb_rating ∧
          ¬ m.id ∈ excluded))
        (popKey db) limit).map
        (fun m => { movie := m, score := m.popularity_score, algorithm := "genre" })

theorem genre_based_length (db : DB) (user : Option Nat) (limit : Nat) (mr : ℚ) :
    (genre_based db user limit mr).length ≤ limit := by
  match user with
  | none => exact popularity_based_length db limit mr
  | some u =>
    by_cases he : genreScores db u = []
    · simp only [genre_based, if_pos he]
      exact popularity_based_length db limit mr
    · simp only [genre_based, if_neg he]
      simpa using moviePipeline_length db _ (popKey db) limit

theorem genre_based_mem {db : DB} {user : Option Nat} {limit : Nat} {mr : ℚ} {r : Rec} :
    r ∈ genre_based db user limit mr →
      mr ≤ r.movie.imdb_rating ∧ r.movie ∈ db.movies ∧
      r.score = r.movie.popularity_score := by
  intro h
  match user with
  | none => exact popularity_based_mem h
  | some u =>
    by_cases he : genreScores db u = []
    · simp only [genre_based, if_pos he] at h
      exact popularity_based_mem h
    · simp only [genre_based, if_neg he, List.mem_map] at h
      obtain ⟨m, hm, rfl⟩ := h
      have hm' := moviePipeline_mem hm
      simp only [decide_eq_true_eq] at hm'
      exact ⟨hm'.2.2.1, hm'.1, rfl⟩

theorem genre_based_nodup {db : DB}
    (hdb : (db.movies.map (fun m => m.id)).Nodup) (user : Option Nat) (limit : Nat) (mr : ℚ) :
    ((genre_based db user limit mr).map (fun r => r.movie.id)).Nodup := by
  match user with
  | none => exact popularity_based_nodup hdb limit mr
  | some u =>
    by_cases he : genreScores db u = []
    · simp only [genre_based, if_pos he]
      exact popularity_based_nodup hdb limit mr
    · simp only [genre_based, if_neg he]
      simpa [List.map_map, Function.comp] using
        moviePipeline_nodup hdb _ (popKey db) limit

theorem genre_based_scores_sorted (db : DB) (user : Option Nat) (limit : Nat) (mr : ℚ) :
    ((genre_based db user limit mr).map (fun r => r.score)).Pairwise (fun a b => b ≤ a) := by
  match user with
  | none => exact popularity_based_scores_sorted db limit mr
  | some u =>
    by_cases he : genreScores db u = []
    · simp only [genre_based, if_pos he]
      exact popularity_based_scores_sorted db limit mr
    · simp only [genre_based, if_neg he, List.map_map, List.pairwise_map]
      refine (moviePipeline_sorted db _ (popKey db) limit).imp ?_
      intro a b hab
      have := Prod.Lex.monotone_fst _ _ hab
      simpa [popKey] using this

theorem getMovie_id (db : DB) (mid : Nat) : (getMovie db mid).id = mid := by
  rw [getMovie]
  cases h : db.movies.find? (fun m => decide (m.id = mid)) with
  | none => rfl
  | some m =>
    have := List.find?_some h
    simp only [decide_eq_true_eq] at this
    simpa using this

/-- `{r.movie_id: r.rating for r in ...}` — a user's rating dict, as an
association list in store order. -/
def userRatingMap (db : DB) (u : Nat) : List (Nat × ℚ) :=
  (userRatings db u).map (fun r => (r.movie, r.score))

/-- Dict lookup (total because it is only applied to present keys). -/
def ratLookup (a : List (Nat × ℚ)) (mid : Nat) : ℚ :=
  ((a.find? (fun p => decide (p.1 = mid))).map (fun p => p.2)).getD 0

/-- `set(user_movie_ratings.keys()) & set(other_ratings.keys())`, kept in
the first dict's key order. -/
def commonMovies (a b : List (Nat × ℚ)) : List Nat :=
  (a.map (fun p => p.1)).filter (fun mid => decide (mid ∈ b.map (fun p => p.1)))

/-- The similarity score of `collaborative_filtering` (views.py lines
163-168): mean over the common movies of `1 - |score_a - score_b| / 4`. -/
def similarity (a b : List (Nat × ℚ)) : ℚ :=
  let common := commonMovies a b
  ((common.map (fun mid => 1 - |ratLookup a mid - ratLookup b mid| / 4)).sum) /
    (common.length : ℚ)

/-- The `similar_users` accumulation loop (views.py lines 154-171): walk
every other user's rating row, skip users already collected, and collect
`(user, similarity)` when at least two common movies exist and the
similarity exceeds 1/2. -/
def similarUsersAux (db : DB) (u : Nat) (acc : List (Nat × ℚ)) :
    List RatingRec → List (Nat × ℚ)
  | [] => acc
  | r :: rest =>
    if r.user ∈ acc.map (fun p => p.1) then similarUsersAux db u acc rest
    else
      let mine := userRatingMap db u
      let other := userRatingMap db r.user
      if 2 ≤ (commonMovies mine other).length then
        if 1/2 < similarity mine other then
          similarUsersAux db u (acc ++ [(r.user, similarity mine other)]) rest
        else similarUsersAux db u acc rest
      else similarUsersAux db u acc rest

def similarUsers (db : DB) (u : Nat) : List (Nat × ℚ) :=
  similarUsersAux db u [] (db.ratings.filter (fun r => decide (¬ r.user = u)))

/-- `sorted(similar_users, key=similarity, reverse=True)[:10]` ids. -/
def similarUserIds (db : DB) (u : Nat) : List Nat :=
  ((sortDesc (fun p : Nat × ℚ => p.2) (similarUsers db u)).take 10).map (fun p => p.1)

/-- `Rating.objects.filter(user_id__in=similar_user_ids, rating__gte=4)
.exclude(movie_id__in=user_movie_ratings.keys())`. -/
def collabCandidates (db : DB) (u : Nat) : List RatingRec :=
  db.ratings.filter (fun r => decide (r.user ∈ similarUserIds db u ∧ 4 ≤ r.score ∧
    ¬ r.movie ∈ (userRatings db u).map (fun s => s.movie)))

/-- One row of `.values('movie').annotate(avg_score=Avg(...), count=Count(...))`. -/
structure MovieGroup where
  movie : Nat
  avg_score : ℚ
  count : Nat
  deriving DecidableEq

/-- The grouped candidate rows.  SQL `GROUP BY` emits groups in a
backend-chosen order before `order_by` applies; the embedding fixes a
deterministic one. -/
def collabGroups (db : DB) (u : Nat) : List MovieGroup :=
  let cands := collabCandidates db u
  ((cands.map (fun r => r.movie)).dedup).map (fun mid =>
    let rs := cands.filter (fun r => decide (r.movie = mid))
    { movie := mid, avg_score := (rs.map (fun r => r.score)).sum / (rs.length : ℚ),
      count := rs.length })

theorem collabGroups_keys (db : DB) (u : Nat) :
    (collabGroups db u).map (fun g => g.movie) =
      ((collabCandidates db u).map (fun r => r.movie)).dedup := by
  rw [collabGroups, List.map_map]
  exact List.map_id' _

/-- The main branch of `collaborative_filtering` (views.py lines 177-202):
grouped candidate movies with ≥ 2 supporting neighbours and
`imdb_rating ≥ min_rating`, ordered by `(-avg_score, -count)`. -/
def collabMain (db : DB) (u : Nat) (limit : Nat) (min_rating : ℚ) : List Rec :=
  ((sortDesc (fun g : MovieGroup => toLex (g.avg_score, g.count))
      ((collabGroups db u).filter
        (fun g => decide (2 ≤ g.count ∧ min_rating ≤ (getMovie db g.movie).imdb_rating)))).take
      limit).map
    (fun g => { movie := getMovie db g.movie, score := g.avg_score,
                algorithm := "collaborative" })

theorem collabMain_length (db : DB) (u : Nat) (limit : Nat) (mr : ℚ) :
    (collabMain db u limit mr).length ≤ limit := by
  rw [collabMain, List.length_map]
  exact List.length_take_le _ _

theorem collabMain_mem {db : DB} {u : Nat} {limit : Nat} {mr : ℚ} {r : Rec} :
    r ∈ collabMain db u limit mr → mr ≤ r.movie.imdb_rating := by
  intro h
  rw [collabMain] at h
  rw [List.mem_map] at h
  obtain ⟨g, hg, rfl⟩ := h
  have hg' := mem_sortDesc.mp (List.mem_of_mem_take hg)
  have := (List.mem_filter.mp hg').2
  simp only [decide_eq_true_eq] at this
  exact this.2

theorem collabMain_nodup {db : DB} (u : Nat) (limit : Nat) (mr : ℚ) :
    ((collabMain db u limit mr).map (fun r => r.movie.id)).Nodup := by
  rw [collabMain, List.map_map]
  have hkey : ((collabGroups db u).map (fun g => g.movie)).Nodup := by
    rw [collabGroups_keys]
    exact List.nodup_dedup _
  have h1 : (((collabGroups db u).filter
      (fun g => decide (2 ≤ g.count ∧ mr ≤ (getMovie db g.movie).imdb_rating))).map
        (fun g => g.movie)).Nodup :=
    hkey.sublist ((List.filter_sublist _).map _)
  have h2 := ((sortDesc_perm (fun g : MovieGroup => toLex (g.avg_score, g.count)) _).map
    (fun g : MovieGroup => g.movie)).nodup_iff.mpr h1
  have h3 : (((sortDesc (fun g : MovieGroup => toLex (g.avg_score, g.count))
      ((collabGroups db u).filter
        (fun g => decide (2 ≤ g.count ∧ mr ≤ (getMovie db g.movie).imdb_rating)))).take
      limit).map (fun g : MovieGroup => g.movie)).Nodup :=
    h2.sublist ((List.take_sublist _ _).map _)
  have hcongr : (((sortDesc (fun g : MovieGroup => toLex (g.avg_score, g.count))
      ((collabGroups db u).filter
        (fun g => decide (2 ≤ g.count ∧ mr ≤ (getMovie db g.movie).imdb_rating)))).take
      limit).map ((fun r : Rec => r.movie.id) ∘ fun g =>
        { movie := getMovie db g.movie, score := g.avg_score,
          algorithm := "collaborative" })) =
      (((sortDesc (fun g : MovieGroup => toLex (g.avg_score, g.count))
      ((collabGroups db u).filter
        (fun g => decide (2 ≤ g.count ∧ mr ≤ (getMovie db g.movie).imdb_rating)))).take
      limit).map (fun g : MovieGroup => g.movie)) :=
    List.map_congr_left (fun g _ => getMovie_id db g.movie)
  rw [hcongr]
  exact h3

theorem collabMain_scores_sorted (db : DB) (u : Nat) (limit : Nat) (mr : ℚ) :
    ((collabMain db u limit mr).map (fun r => r.score)).Pairwise (fun a b => b ≤ a) := by
  rw [collabMain, List.map_map, List.pairwise_map]
  have := (sortDesc_sorted (fun g : MovieGroup => toLex (g.avg_score, g.count))
    ((collabGroups db u).filter
      (fun g => decide (2 ≤ g.count ∧ mr ≤ (getMovie db g.movie).imdb_rating)))).sublist
    (List.take_sublist limit _)
  refine this.imp ?_
  intro a b hab
  have := Prod.Lex.monotone_fst _ _ hab
  simpa using this

/-- `RecommendationEngine.collaborative_filtering` (views.py lines
138-202).  Anonymous users fall back to popularity; fewer than 3 own
ratings, or an empty similar-user set, falls back to genre; otherwise
the main branch `collabMain`. -/
def collaborative_filtering (db : DB) (user : Option Nat) (limit : Nat)
    (min_rating : ℚ) : List Rec :=
  match user with
  | none => popularity_based db limit min_rating
  | some u =>
    if (userRatings db u).length < 3 then genre_based db (some u) limit min_rating
    else if similarUsers db u = [] then genre_based db (some u) limit min_rating
    else collabMain db u limit min_rating

theorem collaborative_filtering_length (db : DB) (user : Option Nat) (limit : Nat) (mr : ℚ) :
    (collaborative_filtering db user limit mr).length ≤ limit := by
  match user with
  | none => exact popularity_based_length db limit mr
  | some u =>
    by_cases h3 : (userRatings db u).length < 3
    · simp only [collaborative_filtering, if_pos h3]
      exact genre_based_length db (some u) limit mr
    · by_cases hsu : similarUsers db u = []
      · simp only [collaborative_filtering, if_neg h3, if_pos hsu]
        exact genre_based_length db (some u) limit mr
      · simp only [collaborative_filtering, if_neg h3, if_neg hsu]
        exact collabMain_length db u limit mr

theorem collaborative_filtering_mem {db : DB} {user : Option Nat} {limit : Nat} {mr : ℚ}
    {r : Rec} :
    r ∈ collaborative_filtering db user limit mr → mr ≤ r.movie.imdb_rating := by
  intro h
  match user with
  | none => exact (popularity_based_mem h).1
  | some u =>
    by_cases h3 : (userRatings db u).length < 3
    · simp only [collaborative_filtering, if_pos h3] at h
      exact (genre_based_mem h).1
    · by_cases hsu : similarUsers db u = []
      · simp only [collaborative_filtering, if_neg h3, if_pos hsu] at h
        exact (genre_based_mem h).1
      · simp only [collaborative_filtering, if_neg h3, if_neg hsu] at h
        exact collabMain_mem h

theorem collaborative_filtering_nodup {db : DB}
    (hdb : (db.movies.map (fun m => m.id)).Nodup) (user : Option Nat) (limit : Nat) (mr : ℚ) :
    ((collaborative_filtering db user limit mr).map (fun r => r.movie.id)).Nodup := by
  match user with
  | none => exact popularity_based_nodup hdb limit mr
  | some u =>
    by_cases h3 : (userRatings db u).length < 3
    · simp only [collaborative_filtering, if_pos h3]
      exact genre_based_nodup hdb (some u) limit mr
    · by_cases hsu : similarUsers db u = []
      · simp only [collaborative_filtering, if_neg h3, if_pos hsu]
        exact genre_based_nodup hdb (some u) limit mr
      · simp only [collaborative_filtering, if_neg h3, if_neg hsu]
        exact collabMain_nodup u limit mr

theorem collaborative_filtering_scores_sorted (db : DB) (user : Option Nat) (limit : Nat)
    (mr : ℚ) :
    ((collaborative_filtering db user limit mr).map (fun r => r.score)).Pairwise
      (fun a b => b ≤ a) := by
  match user with
  | none => exact popularity_based_scores_sorted db limit mr
  | some u =>
    by_cases h3 : (userRatings db u).length < 3
    · simp only [collaborative_filtering, if_pos h3]
      exact genre_based_scores_sorted db (some u) limit mr
    · by_cases hsu : similarUsers db u = []
      · simp only [collaborative_filtering, if_neg h3, if_pos hsu]
        exact genre_based_scores_sorted db (some u) limit mr
      · simp only [collaborative_filtering, if_neg h3, if_neg hsu]
        exact collabMain_scores_sorted db u limit mr

/-- `Counter` lookup with `in`-test semantics. -/
def counterGet (c : List (Nat × ℚ)) (k : Nat) : ℚ :=
  ((c.find? (fun p => decide (p.1 = k))).map (fun p => p.2)).getD 0

def counterHas (c : List (Nat × ℚ)) (k : Nat) : Bool :=
  (c.find? (fun p => decide (p.1 = k))).isSome

/-- `preferred_genres` of `content_based` (views.py lines 218-235): every
rating ≥ 4 adds its score to each genre of its movie. -/
def genrePrefs (db : DB) (u : Nat) : List (Nat × ℚ) :=
  (userHighRatings db u).foldl
    (fun c r => ((getMovie db r.movie).genres).foldl (fun c g => counterAdd c g r.score) c) []

/-- `preferred_tags` of `content_based`. -/
def tagPrefs (db : DB) (u : Nat) : List (Nat × ℚ) :=
  (userHighRatings db u).foldl
    (fun c r => ((getMovie db r.movie).tags).foldl (fun c t => counterAdd c t r.score) c) []

/-- `preferred_decades` of `content_based`; a decade is
`(release_date.year // 10) * 10`. -/
def decadePrefs (db : DB) (u : Nat) : List (Nat × ℚ) :=
  (userHighRatings db u).foldl
    (fun c r => counterAdd c ((getMovie db r.movie).year / 10 * 10) r.score) []

/-- The content score of one candidate movie (views.py lines 248-266):
matching genres weigh 0.4, matching tags 0.3, a matching decade 0.3. -/
def contentScore (db : DB) (u : Nat) (m : Movie) : ℚ :=
  ((m.genres.filter (fun g => counterHas (genrePrefs db u) g)).map
      (fun g => counterGet (genrePrefs db u) g * (2/5))).sum +
  ((m.tags.filter (fun t => counterHas (tagPrefs db u) t)).map
      (fun t => counterGet (tagPrefs db u) t * (3/10))).sum +
  (if counterHas (decadePrefs db u) (m.year / 10 * 10) then
      counterGet (decadePrefs db u) (m.year / 10 * 10) * (3/10)
    else 0)

/-- The main branch of `content_based` (views.py lines 237-279): score
every unrated movie with `imdb_rating ≥ min_rating`, keep strictly
positive scores, sort by score descending, truncate. -/
def contentMain (db : DB) (u : Nat) (limit : Nat) (min_rating : ℚ) : List Rec :=
  let scored := (db.movies.filter
      (fun m => decide (¬ m.id ∈ (userRatings db u).map (fun r => r.movie) ∧
        min_rating ≤ m.imdb_rating ∧ 0 < contentScore db u m))).map
    (fun m => { movie := m, score := contentScore db u m, algorithm := "content" })
  (sortDesc (fun r : Rec => r.score) scored).take limit

theorem contentMain_length (db : DB) (u : Nat) (limit : Nat) (mr : ℚ) :
    (contentMain db u limit mr).length ≤ limit := by
  rw [contentMain]
  exact List.length_take_le _ _

theorem contentMain_mem {db : DB} {u : Nat} {limit : Nat} {mr : ℚ} {r : Rec} :
    r ∈ contentMain db u limit mr → mr ≤ r.movie.imdb_rating := by
  intro h
  rw [contentMain] at h
  have h1 := mem_sortDesc.mp (List.mem_of_mem_take h)
  rw [List.mem_map] at h1
  obtain ⟨m, hm, rfl⟩ := h1
  have := (List.mem_filter.mp hm).2
  simp only [decide_eq_true_eq] at this
  exact this.2.1

theorem contentMain_nodup {db : DB}
    (hdb : (db.movies.map (fun m => m.id)).Nodup) (u : Nat) (limit : Nat) (mr : ℚ) :
    ((contentMain db u limit mr).map (fun r => r.movie.id)).Nodup := by
  rw [contentMain]
  have h1 : (((db.movies.filter
      (fun m => decide (¬ m.id ∈ (userRatings db u).map (fun r => r.movie) ∧
        mr ≤ m.imdb_rating ∧ 0 < contentScore db u m))).map
      (fun m => ({ movie := m, score := contentScore db u m,
                   algorithm := "content" } : Rec))).map (fun r => r.movie.id)).Nodup := by
    rw [List.map_map]
    have : ((db.movies.filter
        (fun m => decide (¬ m.id ∈ (userRatings db u).map (fun r => r.movie) ∧
          mr ≤ m.imdb_rating ∧ 0 < contentScore db u m))).map
        (fun m => m.id)).Nodup :=
      hdb.sublist ((List.filter_sublist _).map _)
    exact this
  have h2 := ((sortDesc_perm (fun r : Rec => r.score) _).map
    (fun r : Rec => r.movie.id)).nodup_iff.mpr h1
  exact h2.sublist ((List.take_sublist _ _).map _)

theorem contentMain_scores_sorted (db : DB) (u : Nat) (limit : Nat) (mr : ℚ) :
    ((contentMain db u limit mr).map (fun r => r.score)).Pairwise (fun a b => b ≤ a) := by
  rw [contentMain, List.pairwise_map]
  exact (sortDesc_sorted (fun r : Rec => r.score) _).sublist (List.take_sublist limit _)

/-- `RecommendationEngine.content_based` (views.py lines 204-279).
Anonymous users fall back to popularity; a user with no rating ≥ 4 falls
back to genre; otherwise `contentMain`. -/
def content_based (db : DB) (user : Option Nat) (limit : Nat) (min_rating : ℚ) : List Rec :=
  match user with
  | none => popularity_based db limit min_rating
  | some u =>
    if userHighRatings db u = [] then genre_based db (some u) limit min_rating
    else contentMain db u limit min_rating

theorem content_based_length (db : DB) (user : Option Nat) (limit : Nat) (mr : ℚ) :
    (content_based db user limit mr).length ≤ limit := by
  match user with
  | none => exact popularity_based_length db limit mr
  | some u =>
    by_cases hf : userHighRatings db u = []
    · simp only [content_based, if_pos hf]
      exact genre_based_length db (some u) limit mr
    · simp only [content_based, if_neg hf]
      exact contentMain_length db u limit mr

theorem content_based_mem {db : DB} {user : Option Nat} {limit : Nat} {mr : ℚ} {r : Rec} :
    r ∈ content_based db user limit mr → mr ≤ r.movie.imdb_rating := by
  intro h
  match user with
  | none => exact (popularity_based_mem h).1
  | some u =>
    by_cases hf : userHighRatings db u = []
    · simp only [content_based, if_pos hf] at h
      exact (genre_based_mem h).1
    · simp only [content_based, if_neg hf] at h
      exact contentMain_mem h

theorem content_based_nodup {db : DB}
    (hdb : (db.movies.map (fun m => m.id)).Nodup) (user : Option Nat) (limit : Nat) (mr : ℚ) :
    ((content_based db user limit mr).map (fun r => r.movie.id)).Nodup := by
  match user with
  | none => exact popularity_based_nodup hdb limit mr
  | some u =>
    by_cases hf : userHighRatings db u = []
    · simp only [content_based, if_pos hf]
      exact genre_based_nodup hdb (some u) limit mr
    · simp only [content_based, if_neg hf]
      exact contentMain_nodup hdb u limit mr

theorem content_based_scores_sorted (db : DB) (user : Option Nat) (limit : Nat) (mr : ℚ) :
    ((content_based db user limit mr).map (fun r => r.score)).Pairwise (fun a b => b ≤ a) := by
  match user with
  | none => exact popularity_based_scores_sorted db limit mr
  | some u =>
    by_cases hf : userHighRatings db u = []
    · simp only [content_based, if_pos hf]
      exact genre_based_scores_sorted db (some u) limit mr
    · simp only [content_based, if_neg hf]
      exact contentMain_scores_sorted db u limit mr

/-- The merge loop of `hybrid_recommendations` (views.py lines 302-314):
walk the concatenated sub-results, skip movies already seen, relabel the
kept entry `"hybrid"`, and stop right after the `limit`-th kept entry
(the loop appends first and then breaks on `len(final_recs) >= limit`). -/
def hybridMerge (limit : Nat) (seen : List Nat) (count : Nat) : List Rec → List Rec
  | [] => []
  | r :: rest =>
    if r.movie.id ∈ seen then hybridMerge limit seen count rest
    else
      let r' : Rec := { r with algorithm := "hybrid" }
      if limit ≤ count + 1 then [r']
      else r' :: hybridMerge limit (r.movie.id :: seen) (count + 1) rest

theorem hybridMerge_length (limit : Nat) :
    ∀ (l : List Rec) (seen : List Nat) (count : Nat), count < limit →
      count + (hybridMerge limit seen count l).length ≤ limit := by
  intro l
  induction l with
  | nil =>
    intro seen count h
    simp only [hybridMerge, List.length_nil]
    omega
  | cons r rest ih =>
    intro seen count h
    rw [hybridMerge]
    by_cases hs : r.movie.id ∈ seen
    · simp only [if_pos hs]
      exact ih seen count h
    · simp only [if_neg hs]
      by_cases hl : limit ≤ count + 1
      · simp only [if_pos hl, List.length_cons, List.length_nil]
        omega
      · simp only [if_neg hl, List.length_cons]
        have := ih (r.movie.id :: seen) (count + 1) (by omega)
        omega

theorem hybridMerge_mem {limit : Nat} :
    ∀ {l : List Rec} {seen : List Nat} {count : Nat} {r : Rec},
      r ∈ hybridMerge limit seen count l → ∃ s ∈ l, r.movie = s.movie := by
  intro l
  induction l with
  | nil => intro seen count r h; simp [hybridMerge] at h
  | cons s rest ih =>
    intro seen count r h
    rw [hybridMerge] at h
    by_cases hs : s.movie.id ∈ seen
    · rw [if_pos hs] at h
      obtain ⟨t, ht, he⟩ := ih h
      exact ⟨t, List.mem_cons_of_mem _ ht, he⟩
    · rw [if_neg hs] at h
      by_cases hl : limit ≤ count + 1
      · rw [if_pos hl] at h
        rw [List.mem_singleton] at h
        exact ⟨s, List.mem_cons_self _ _, by rw [h]⟩
      · rw [if_neg hl] at h
        rcases List.mem_cons.mp h with he | hm
        · exact ⟨s, List.mem_cons_self _ _, by rw [he]⟩
        · obtain ⟨t, ht, he⟩ := ih hm
          exact ⟨t, List.mem_cons_of_mem _ ht, he⟩

theorem hybridMerge_nodup (limit : Nat) :
    ∀ (l : List Rec) (seen : List Nat) (count : Nat),
      ((hybridMerge limit seen count l).map (fun r => r.movie.id)).Nodup ∧
      ∀ r ∈ hybridMerge limit seen count l, ¬ r.movie.id ∈ seen := by
  intro l
  induction l with
  | nil => intro seen count; simp [hybridMerge]
  | cons s rest ih =>
    intro seen count
    rw [hybridMerge]
    by_cases hs : s.movie.id ∈ seen
    · simpa only [if_pos hs] using ih seen count
    · simp only [if_neg hs]
      by_cases hl : limit ≤ count + 1
      · simp only [if_pos hl]
        constructor
        · simp
        · intro r hr
          rw [List.mem_singleton] at hr
          rw [hr]
          exact hs
      · simp only [if_neg hl]
        obtain ⟨ihn, ihs⟩ := ih (s.movie.id :: seen) (count + 1)
        constructor
        · rw [List.map_cons, List.nodup_cons]
          refine ⟨?_, ihn⟩
          intro hmem
          rw [List.mem_map] at hmem
          obtain ⟨r, hr, he⟩ := hmem
          exact (ihs r hr) (by rw [he]; exact List.mem_cons_self _ _)
        · intro r hr
          rcases List.mem_cons.mp hr with he | hm
          · rw [he]
            exact hs
          · intro hseen
            exact (ihs r hm) (List.mem_cons_of_mem _ hseen)

/-- `RecommendationEngine.hybrid_recommendations` (views.py lines
281-316): popularity and genre sub-lists at `limit // 2`; collaborative
and content sub-lists at `limit // 3` when the user has ≥ 5 ratings;
concatenated, deduplicated by movie, relabelled and truncated by
`hybridMerge`.  Anonymous users fall back to popularity. -/
def hybrid_recommendations (db : DB) (user : Option Nat) (limit : Nat)
    (min_rating : ℚ) : List Rec :=
  match user with
  | none => popularity_based db limit min_rating
  | some u =>
    let popularity_recs := popularity_based db (limit / 2) min_rating
    let genre_recs := genre_based db (some u) (limit / 2) min_rating
    let collaborative_recs :=
      if 5 ≤ (userRatings db u).length then
        collaborative_filtering db (some u) (limit / 3) min_rating
      else []
    let content_recs :=
      if 5 ≤ (userRatings db u).length then
        content_based db (some u) (limit / 3) min_rating
      else []
    hybridMerge limit [] 0
      (popularity_recs ++ genre_recs ++ collaborative_recs ++ content_recs)

theorem hybrid_recommendations_length (db : DB) (user : Option Nat) {limit : Nat}
    (hl : 1 ≤ limit) (mr : ℚ) :
    (hybrid_recommendations db user limit mr).length ≤ limit := by
  match user with
  | none => exact popularity_based_length db limit mr
  | some u =>
    have := hybridMerge_length limit
      (popularity_based db (limit / 2) mr ++ genre_based db (some u) (limit / 2) mr ++
        (if 5 ≤ (userRatings db u).length then
          collaborative_filtering db (some u) (limit / 3) mr else []) ++
        (if 5 ≤ (userRatings db u).length then
          content_based db (some u) (limit / 3) mr else []))
      [] 0 hl
    simpa [hybrid_recommendations] using this

theorem hybrid_recommendations_mem {db : DB} {user : Option Nat} {limit : Nat} {mr : ℚ}
    {r : Rec} :
    r ∈ hybrid_recommendations db user limit mr → mr ≤ r.movie.imdb_rating := by
  intro h
  match user with
  | none => exact (popularity_based_mem h).1
  | some u =>
    rw [hybrid_recommendations] at h
    obtain ⟨s, hs, he⟩ := hybridMerge_mem h
    rw [List.append_assoc, List.append_assoc] at hs
    rw [he]
    rcases List.mem_append.mp hs with h1 | h23
    · exact (popularity_based_mem h1).1
    · rcases List.mem_append.mp h23 with h2 | h34
      · exact (genre_based_mem h2).1
      · rcases List.mem_append.mp h34 with h3 | h4
        · by_cases h5 : 5 ≤ (userRatings db u).length
          · rw [if_pos h5] at h3
            exact collaborative_filtering_mem h3
          · rw [if_neg h5] at h3
            simp at h3
        · by_cases h5 : 5 ≤ (userRatings db u).length
          · rw [if_pos h5] at h4
            exact content_based_mem h4
          · rw [if_neg h5] at h4
            simp at h4

theorem hybrid_recommendations_nodup (db : DB) (user : Option Nat) (limit : Nat) (mr : ℚ)
    (hdb : (db.movies.map (fun m => m.id)).Nodup) :
    ((hybrid_recommendations db user limit mr).map (fun r => r.movie.id)).Nodup := by
  match user with
  | none => exact popularity_based_nodup hdb limit mr
  | some u =>
    rw [hybrid_recommendations]
    exact (hybridMerge_nodup limit _ [] 0).1

/-- The closed set of strategies the engine dispatches over. -/
inductive Strategy
  | popularity
  | genre
  | collaborative
  | content
  | hybrid
  deriving DecidableEq

def runStrategy (s : Strategy) (db : DB) (user : Option Nat) (limit : Nat)
    (min_rating : ℚ) : List Rec :=
  match s with
  | .popularity => popularity_based db limit min_rating
  | .genre => genre_based db user limit min_rating
  | .collaborative => collaborative_filtering db user limit min_rating
  | .content => content_based db user limit min_rating
  | .hybrid => hybrid_recommendations db user limit min_rating

/-- The field names the `Rating` model declares
(ratings/models.py lines 14-25).  The numeric column is `score`. -/
def ratingFieldNames : List String :=
  ["id", "user", "movie", "score", "review", "rated_at", "updated_at"]

/-- The two exception kinds the engine's broken references raise. -/
inductive DjangoError
  | fieldError (model : String) (field : String)
  | attributeError (obj : String) (attr : String)
  deriving DecidableEq

/-- Resolving a Rating field name inside a queryset expression
(`filter(rating__gte=4)`, `Avg('ratings__rating')`): Django resolves the
name eagerly when the queryset method is called and raises `FieldError`
when the model declares no such field. -/
def resolveRatingField (name : String) : Except DjangoError Unit :=
  if name ∈ ratingFieldNames then Except.ok ()
  else Except.error (.fieldError "Rating" name)

/-- Reading an instance attribute of a `Rating` object (`r.rating`):
`AttributeError` when the model declares no such field. -/
def getRatingAttr (name : String) : Except DjangoError Unit :=
  if name ∈ ratingFieldNames then Except.ok ()
  else Except.error (.attributeError "Rating" name)

/-- `popularity_based` as executed: the queryset annotates
`Avg('ratings__rating')` (views.py line 63) before anything is returned. -/
def popularity_based_dj (db : DB) (limit : Nat) (mr : ℚ) : Except DjangoError (List Rec) :=
  (resolveRatingField "rating").map (fun _ => popularity_based db limit mr)

/-- `genre_based` as executed: the authenticated path first builds
`Rating.objects.filter(user=user, rating__gte=4)` (views.py line 91). -/
def genre_based_dj (db : DB) (user : Option Nat) (limit : Nat) (mr : ℚ) :
    Except DjangoError (List Rec) :=
  match user with
  | none => popularity_based_dj db limit mr
  | some u => (resolveRatingField "rating").map (fun _ => genre_based db (some u) limit mr)

/-- `collaborative_filtering` as executed: `filter(user=user)` and
`count()` succeed; under 3 ratings it delegates to `genre_based`,
otherwise the dict comprehension reads `r.rating` (views.py line 151). -/
def collaborative_filtering_dj (db : DB) (user : Option Nat) (limit : Nat) (mr : ℚ) :
    Except DjangoError (List Rec) :=
  match user with
  | none => popularity_based_dj db limit mr
  | some u =>
    if (userRatings db u).length < 3 then genre_based_dj db (some u) limit mr
    else (getRatingAttr "rating").map
      (fun _ => collaborative_filtering db (some u) limit mr)

/-- `content_based` as executed: the authenticated path first builds
`Rating.objects.filter(user=user, rating__gte=4)` (views.py line 213). -/
def content_based_dj (db : DB) (user : Option Nat) (limit : Nat) (mr : ℚ) :
    Except DjangoError (List Rec) :=
  match user with
  | none => popularity_based_dj db limit mr
  | some u => (resolveRatingField "rating").map (fun _ => content_based db (some u) limit mr)

/-- `hybrid_recommendations` as executed: its first statement on the
authenticated path calls `popularity_based` (views.py line 290), whose
exception propagates. -/
def hybrid_recommendations_dj (db : DB) (user : Option Nat) (limit : Nat) (mr : ℚ) :
    Except DjangoError (List Rec) :=
  match user with
  | none => popularity_based_dj db limit mr
  | some u =>
    (popularity_based_dj db (limit / 2) mr).bind
      (fun _ => Except.ok (hybrid_recommendations db (some u) limit mr))

def runStrategyDj (s : Strategy) (db : DB) (user : Option Nat) (limit : Nat) (mr : ℚ) :
    Except DjangoError (List Rec) :=
  match s with
  | .popularity => popularity_based_dj db limit mr
  | .genre => genre_based_dj db user limit mr
  | .collaborative => collaborative_filtering_dj db user limit mr
  | .content => content_based_dj db user limit mr
  | .hybrid => hybrid_recommendations_dj db user limit mr

/-- Values the cache stores. -/
inductive CVal
  | recList (rs : List Rec)
  | movieList (ms : List Movie)
  deriving DecidableEq

/-- The cache backend's key-value state. -/
abbrev Cache := List (String × CVal)

def cacheGet (c : Cache) (k : String) : Option CVal :=
  (c.find? (fun kv => decide (kv.1 = k))).map (fun kv => kv.2)

def cacheSet (c : Cache) (k : String) (v : CVal) : Cache :=
  (k, v) :: c.filter (fun kv => decide (¬ kv.1 = k))

deriving instance DecidableEq for Except

/-- The outcome of one `cached_query` call, together with whether
`query_func` was invoked (the spec's call counter). -/
structure QueryOutcome where
  result : Except DjangoError CVal
  cache : Cache
  invokedQuery : Bool
  deriving DecidableEq

/-- `CacheManager.cached_query` (cache_utils.py lines 56-82): return the
cached value on a hit; otherwise invoke `query_func`, store a successful
result, and let an exception propagate with nothing stored. -/
def cached_query (c : Cache) (key : String) (f : Unit → Except DjangoError CVal) :
    QueryOutcome :=
  match cacheGet c key with
  | some v => { result := Except.ok v, cache := c, invokedQuery := false }
  | none =>
    match f () with
    | Except.ok v => { result := Except.ok v, cache := cacheSet c key v, invokedQuery := true }
    | Except.error e => { result := Except.error e, cache := c, invokedQuery := true }

/-- The methods class `RecommendationEngine` actually defines. -/
def engineAttrNames : List String :=
  ["popularity_based", "genre_based", "collaborative_filtering", "content_based",
   "hybrid_recommendations"]

/-- Attribute access on a `RecommendationEngine` instance. -/
def getEngineAttr (name : String) : Except DjangoError Unit :=
  if name ∈ engineAttrNames then Except.ok ()
  else Except.error (.attributeError "RecommendationEngine" name)

/-- The method name each dispatch branch of `UserRecommendationsView.get`
(views.py lines 360-379) and of
`RecommendationCacheManager.get_user_recommendations` (cache_utils.py
lines 218-227) tries to call on the engine. -/
def dispatchAttrName : Strategy → String
  | .popularity => "get_popularity_based_recommendations"
  | .genre => "get_genre_based_recommendations"
  | .collaborative => "get_collaborative_filtering_recommendations"
  | .content => "get_content_based_recommendations"
  | .hybrid => "get_hybrid_recommendations"

def strategyName : Strategy → String
  | .popularity => "popularity"
  | .genre => "genre"
  | .collaborative => "collaborative"
  | .content => "content"
  | .hybrid => "hybrid"

/-- `CacheManager.get_cache_key('recommendations', user_id, algorithm,
limit, min_rating=...)` (cache_utils.py lines 16-41): prefix and
positional arguments joined with `:`, keyword arguments appended sorted
by name.  (The md5 branch for serialized keys over 200 characters is not
modelled; keys of this shape stay far below the bound.) -/
def recCacheKey (uid : Nat) (a : Strategy) (limit : Nat) (mr : ℚ) : String :=
  "recommendations:" ++ toString uid ++
    (":" ++ strategyName a ++ ":" ++ toString limit ++ ":min_rating=" ++ toString mr)

/-- The `query_func` closure of
`RecommendationCacheManager.get_user_recommendations`: it dispatches to
`engine.get_*_recommendations`, methods the engine does not define; had
the attribute existed it would produce the strategy's list. -/
def recQueryFunc (db : DB) (uid : Nat) (a : Strategy) (limit : Nat) (mr : ℚ) :
    Except DjangoError CVal :=
  (getEngineAttr (dispatchAttrName a)).map
    (fun _ => CVal.recList (runStrategy a db (some uid) limit mr))

/-- `RecommendationCacheManager.get_user_recommendations`
(cache_utils.py lines 205-229). -/
def get_user_recommendations (db : DB) (c : Cache) (uid : Nat) (a : Strategy)
    (limit : Nat) (mr : ℚ) : QueryOutcome :=
  cached_query c (recCacheKey uid a limit mr) (fun _ => recQueryFunc db uid a limit mr)

inductive HttpResp
  | ok (cached : Bool) (recs : List Rec)
  | serverError
  deriving DecidableEq

def asRecList (v : CVal) : List Rec :=
  match v with
  | .recList rs => rs
  | .movieList _ => []

/-- `UserRecommendationsView.get` after successful parameter validation
(views.py lines 325-388): try the cached path; any exception there is
caught and the handler retries through `engine.get_*_recommendations`
directly; an exception in that fallback escapes as HTTP 500. -/
def userRecommendationsGet (db : DB) (c : Cache) (uid : Nat) (a : Strategy)
    (limit : Nat) (mr : ℚ) : HttpResp × Cache :=
  let o := get_user_recommendations db c uid a limit mr
  match o.result with
  | Except.ok v => (.ok true (asRecList v), o.cache)
  | Except.error _ =>
    match (getEngineAttr (dispatchAttrName a)).map
        (fun _ => runStrategy a db (some uid) limit mr) with
    | Except.ok recs => (.ok false recs, c)
    | Except.error _ => (.serverError, c)

/-- `CacheManager.invalidate_pattern` (cache_utils.py lines 84-102) on an
available Redis backend: delete every key containing the pattern as a
substring (`redis_conn.keys(f"*pattern*")`).  (The except-branch that
clears the whole cache when Redis itself fails only deletes more.) -/
def invalidate_pattern (c : Cache) (p : String) : Cache :=
  c.filter (fun kv => decide (¬ p.toList <:+: kv.1.toList))

/-- `MovieCacheManager.invalidate_movie_cache` (cache_utils.py lines
186-197). -/
def invalidate_movie_cache (c : Cache) (movieId : Nat) : Cache :=
  ["movies_popular", "movies_trending", "movies_list",
   "movie_stats_" ++ toString movieId, "movie_" ++ toString movieId].foldl
    invalidate_pattern c

/-- `UserCacheManager.invalidate_user_cache` (cache_utils.py lines
292-300). -/
def invalidate_user_cache (c : Cache) (uid : Nat) : Cache :=
  ["user_stats:" ++ toString uid, "recommendations:" ++ toString uid].foldl
    invalidate_pattern c

/-- `RecommendationCacheManager.invalidate_user_recommendations`
(cache_utils.py lines 246-251). -/
def invalidate_user_recommendations (c : Cache) (uid : Nat) : Cache :=
  invalidate_pattern c ("recommendations:" ++ toString uid)

/-- The `post_save`/`post_delete` receiver for `ratings.Rating`
(cache_utils.py lines 350-356). -/
def invalidate_rating_cache_on_change (c : Cache) (uid : Nat) (movieId : Nat) : Cache :=
  invalidate_user_recommendations
    (invalidate_user_cache (invalidate_movie_cache c movieId) uid) uid

/-- The `post_save`/`post_delete` receiver for `ratings.Favorite`
(cache_utils.py lines 359-364): unlike the Rating receiver it never
touches the movie-side caches. -/
def invalidate_favorite_cache_on_change (c : Cache) (uid : Nat) (_movieId : Nat) : Cache :=
  invalidate_user_recommendations (invalidate_user_cache c uid) uid

/-- The `post_save`/`post_delete` receiver for `ratings.WatchHistory`
(cache_utils.py lines 367-372), identical in effect to the Favorite
receiver. -/
def invalidate_watch_history_cache_on_change (c : Cache) (uid : Nat) (_movieId : Nat) :
    Cache :=
  invalidate_user_recommendations (invalidate_user_cache c uid) uid

theorem invalidate_pattern_mem {c : Cache} {p : String} {kv : String × CVal} :
    kv ∈ invalidate_pattern c p → kv ∈ c ∧ ¬ p.toList <:+: kv.1.toList := by
  intro h
  have := List.mem_filter.mp h
  simpa using this

theorem foldl_invalidate_mem {kv : String × CVal} :
    ∀ (ps : List String) (c : Cache),
      kv ∈ ps.foldl invalidate_pattern c → kv ∈ c ∧ ∀ p ∈ ps, ¬ p.toList <:+: kv.1.toList := by
  intro ps
  induction ps with
  | nil => intro c h; exact ⟨h, by simp⟩
  | cons p rest ih =>
    intro c h
    rw [List.foldl_cons] at h
    obtain ⟨h1, h2⟩ := ih (invalidate_pattern c p) h
    obtain ⟨h3, h4⟩ := invalidate_pattern_mem h1
    refine ⟨h3, ?_⟩
    intro q hq
    rcases List.mem_cons.mp hq with rfl | hq'
    · exact h4
    · exact h2 q hq'

/-- A cache key that starts with the invalidated pattern is gone after
invalidation; in particular the lookup misses. -/
theorem cacheGet_invalidate_prefix (c : Cache) (p : String) (rest : String) :
    cacheGet (invalidate_pattern c p) (p ++ rest) = none := by
  rw [cacheGet]
  have hf : List.find? (fun kv => decide (kv.1 = p ++ rest)) (invalidate_pattern c p) =
      none := by
    rw [List.find?_eq_none]
    intro kv hkv
    obtain ⟨_, hni⟩ := invalidate_pattern_mem hkv
    simp only [decide_eq_true_eq]
    intro he
    apply hni
    rw [he]
    have hpre : p.toList <+: (p ++ rest).toList := by
      have : (p ++ rest).toList = p.toList ++ rest.toList := by
        simp [String.toList, String.data_append]
      rw [this]
      exact List.prefix_append _ _
    exact hpre.isInfix
  rw [hf]
  rfl

inductive SimMethod
  | genre
  | tags
  | combined
  deriving DecidableEq

inductive ViewErr
  | notFound
  deriving DecidableEq

/-- `Count('genres', filter=Q(genres__in=target_genres))`: the number of
genres shared with the target. -/
def commonGenreCount (m target : Movie) : Nat :=
  (m.genres.filter (fun g => decide (g ∈ target.genres))).length

/-- `Count('tags', filter=Q(tags__in=target_tags))`. -/
def commonTagCount (m target : Movie) : Nat :=
  (m.tags.filter (fun t => decide (t ∈ target.tags))).length

/-- The genre block of `SimilarMoviesView.get` (views.py lines 463-481):
movies sharing ≥ 1 genre with the target, the target excluded, grouped
per movie and ordered by `(-common_genres, -popularity_score)`, first
`limit`; each entry scored by its shared-genre count. -/
def similarGenrePart (db : DB) (target : Movie) (limit : Nat) : List Rec :=
  (moviePipeline db
    (fun m => decide (¬ m.id = target.id ∧ ∃ g ∈ m.genres, g ∈ target.genres))
    (fun m => toLex (commonGenreCount m target, m.popularity_score)) limit).map
    (fun m => { movie := m, score := (commonGenreCount m target : ℚ),
                algorithm := "genre_similarity" })

/-- The tag block of `SimilarMoviesView.get` (views.py lines 483-503):
skipped entirely when the target has no tags (`if target_tags.exists()`),
otherwise analogous to the genre block with a `limit // 2` slice. -/
def similarTagPart (db : DB) (target : Movie) (limit : Nat) : List Rec :=
  if target.tags = [] then []
  else
    (moviePipeline db
      (fun m => decide (¬ m.id = target.id ∧ ∃ t ∈ m.tags, t ∈ target.tags))
      (fun m => toLex (commonTagCount m target, m.popularity_score)) (limit / 2)).map
      (fun m => { movie := m, score := (commonTagCount m target : ℚ),
                  algorithm := "tag_similarity" })

/-- The tag-block append loop: a tag entry is added only when its movie
is not already present (`if movie.id not in [sm['movie'].id ...]`). -/
def appendUnique (acc : List Rec) : List Rec → List Rec
  | [] => acc
  | r :: rest =>
    if r.movie.id ∈ acc.map (fun s => s.movie.id) then appendUnique acc rest
    else appendUnique (acc ++ [r]) rest

theorem appendUnique_mem :
    ∀ {l acc : List Rec} {r : Rec}, r ∈ appendUnique acc l →
      r ∈ acc ∨ (r ∈ l ∧ ¬ r.movie.id ∈ acc.map (fun s => s.movie.id)) := by
  intro l
  induction l with
  | nil => intro acc r h; exact Or.inl h
  | cons r0 rest ih =>
    intro acc r h
    rw [appendUnique] at h
    by_cases hs : r0.movie.id ∈ acc.map (fun s => s.movie.id)
    · rw [if_pos hs] at h
      rcases ih h with h1 | ⟨h2, h3⟩
      · exact Or.inl h1
      · exact Or.inr ⟨List.mem_cons_of_mem _ h2, h3⟩
    · rw [if_neg hs] at h
      rcases ih h with h1 | ⟨h2, h3⟩
      · rcases List.mem_append.mp h1 with ha | hb
        · exact Or.inl ha
        · rw [List.mem_singleton] at hb
          subst hb
          exact Or.inr ⟨List.mem_cons_self _ _, hs⟩
      · refine Or.inr ⟨List.mem_cons_of_mem _ h2, ?_⟩
        intro hmem
        exact h3 (by rw [List.map_append]; exact List.mem_append_left _ hmem)

theorem appendUnique_nodup :
    ∀ {l acc : List Rec}, ((acc.map (fun s => s.movie.id)).Nodup) →
      ((appendUnique acc l).map (fun s => s.movie.id)).Nodup := by
  intro l
  induction l with
  | nil => intro acc h; exact h
  | cons r0 rest ih =>
    intro acc h
    rw [appendUnique]
    by_cases hs : r0.movie.id ∈ acc.map (fun s => s.movie.id)
    · rw [if_pos hs]
      exact ih h
    · rw [if_neg hs]
      refine ih ?_
      rw [List.map_append]
      simp only [List.map_cons, List.map_nil]
      rw [List.nodup_append]
      exact ⟨h, List.nodup_singleton _, by simpa using hs⟩

/-- `SimilarMoviesView.get` (views.py lines 446-519): 404 when the target
movie id does not exist; otherwise the genre and/or tag blocks (per
`method`), merged without duplicates with the genre block first, sorted
by score descending and truncated to `limit`. -/
def similar_movies_view (db : DB) (movieId : Nat) (method : SimMethod) (limit : Nat) :
    Except ViewErr (List Rec) :=
  match db.movies.find? (fun m => decide (m.id = movieId)) with
  | none => Except.error ViewErr.notFound
  | some target =>
    Except.ok ((sortDesc (fun r : Rec => r.score)
      (appendUnique
        (if method = SimMethod.genre ∨ method = SimMethod.combined then
          similarGenrePart db target limit else [])
        (if method = SimMethod.tags ∨ method = SimMethod.combined then
          similarTagPart db target limit else []))).take limit)

theorem similarGenrePart_mem {db : DB} {target : Movie} {limit : Nat} {r : Rec} :
    r ∈ similarGenrePart db target limit →
      r.movie ∈ db.movies ∧ ¬ r.movie.id = target.id ∧
      r.score = (commonGenreCount r.movie target : ℚ) ∧
      r.algorithm = "genre_similarity" := by
  intro h
  rw [similarGenrePart, List.mem_map] at h
  obtain ⟨m, hm, rfl⟩ := h
  have hm' := moviePipeline_mem hm
  simp only [decide_eq_true_eq] at hm'
  exact ⟨hm'.1, hm'.2.1, rfl, rfl⟩

theorem similarTagPart_mem {db : DB} {target : Movie} {limit : Nat} {r : Rec} :
    r ∈ similarTagPart db target limit →
      r.movie ∈ db.movies ∧ ¬ r.movie.id = target.id ∧
      (∃ t ∈ r.movie.tags, t ∈ target.tags) ∧
      r.algorithm = "tag_similarity" := by
  intro h
  rw [similarTagPart] at h
  by_cases ht : target.tags = []
  · rw [if_pos ht] at h
    simp at h
  · rw [if_neg ht] at h
    rw [List.mem_map] at h
    obtain ⟨m, hm, rfl⟩ := h
    have hm' := moviePipeline_mem hm
    simp only [decide_eq_true_eq] at hm'
    exact ⟨hm'.1, hm'.2.1, hm'.2.2, rfl⟩

/-- A small concrete snapshot for the witnesses: movie 1 is rated once
(by user 2), movie 3 is favorited by user 1, movie 2 shares genre 2 with
movie 3; user 42 has no activity. -/
def demoDB : DB :=
  { movies :=
      [ { id := 1, imdb_rating := 7, popularity_score := 10, genres := [], tags := [],
          year := 1994 },
        { id := 2, imdb_rating := 8, popularity_score := 50, genres := [2], tags := [],
          year := 2000 },
        { id := 3, imdb_rating := 6, popularity_score := 5, genres := [2], tags := [1],
          year := 2005 } ],
    ratings := [ { user := 2, movie := 1, score := 3 } ],
    favorites := [ { user := 1, movie := 3 } ] }

/-- A snapshot with rating-bearing users: user 1 has three ratings,
user 7 one, user 9 two. -/
def demoDB4 : DB :=
  { movies :=
      [ { id := 1, imdb_rating := 5, popularity_score := 1, genres := [], tags := [],
          year := 2000 },
        { id := 2, imdb_rating := 5, popularity_score := 2, genres := [], tags := [],
          year := 2001 },
        { id := 3, imdb_rating := 5, popularity_score := 3, genres := [], tags := [],
          year := 2002 } ],
    ratings :=
      [ { user := 1, movie := 1, score := 5 }, { user := 1, movie := 2, score := 4 },
        { user := 1, movie := 3, score := 3 },
        { user := 7, movie := 1, score := 1 },
        { user := 9, movie := 1, score := 4 }, { user := 9, movie := 2, score := 2 } ],
    favorites := [] }

/-- C1: the claim states that every strategy call returns a
recommendation list rather than raising a database field error.  On the
code every strategy call raises before producing anything: the queryset
references (`rating__gte=4`, `Avg('ratings__rating')`) resolve the
Rating field name `rating`, which `ratings/models.py` does not declare
(its score column is `score`), and the surviving collaborative branch
reads the missing instance attribute `r.rating`.  So no invocation ever
returns a list. -/
theorem c1_engine_rating_field_error (db : DB) (uid : Nat) (limit : Nat) (mr : ℚ)
    (s : Strategy) : (runStrategyDj s db (some uid) limit mr).isOk = false := by
  cases s
  case popularity => rfl
  case genre => rfl
  case content => rfl
  case hybrid => rfl
  case collaborative =>
    show (collaborative_filtering_dj db (some uid) limit mr).isOk = false
    rw [collaborative_filtering_dj]
    by_cases h : (userRatings db uid).length < 3
    · rw [if_pos h]
      rfl
    · rw [if_neg h]
      rfl

theorem sum_ones : ∀ (l : List ℚ), (∀ x ∈ l, x = 1) → l.sum = l.length := by
  intro l
  induction l with
  | nil => simp
  | cons a t ih =>
    intro h
    simp only [List.sum_cons, List.length_cons]
    rw [h a (List.mem_cons_self a t), ih (fun x hx => h x (List.mem_cons_of_mem a hx))]
    push_cast
    ring

theorem similarity_one {a b : List (Nat × ℚ)}
    (h : ∀ mid ∈ commonMovies a b, ratLookup a mid = ratLookup b mid)
    (h2 : 2 ≤ (commonMovies a b).length) : similarity a b = 1 := by
  rw [similarity]
  have hsum : ((commonMovies a b).map
      (fun mid => 1 - |ratLookup a mid - ratLookup b mid| / 4)).sum =
      (((commonMovies a b).map
        (fun mid => 1 - |ratLookup a mid - ratLookup b mid| / 4)).length : ℚ) := by
    apply sum_ones
    intro x hx
    rw [List.mem_map] at hx
    obtain ⟨mid, hmid, rfl⟩ := hx
    rw [h mid hmid]
    simp
  rw [hsum, List.length_map]
  rw [div_self]
  intro hz
  rw [Nat.cast_eq_zero] at hz
  omega

theorem similarUsersAux_mem {db : DB} {u : Nat} :
    ∀ {l : List RatingRec} {acc : List (Nat × ℚ)} {p : Nat × ℚ},
      p ∈ similarUsersAux db u acc l →
      p ∈ acc ∨
        (p.2 = similarity (userRatingMap db u) (userRatingMap db p.1) ∧
         2 ≤ (commonMovies (userRatingMap db u) (userRatingMap db p.1)).length ∧
         1/2 < p.2) := by
  intro l
  induction l with
  | nil => intro acc p h; exact Or.inl h
  | cons r rest ih =>
    intro acc p h
    rw [similarUsersAux] at h
    by_cases hs : r.user ∈ acc.map (fun q => q.1)
    · rw [if_pos hs] at h
      exact ih h
    · rw [if_neg hs] at h
      by_cases hc : 2 ≤ (commonMovies (userRatingMap db u) (userRatingMap db r.user)).length
      · rw [if_pos hc] at h
        by_cases hsim : 1/2 < similarity (userRatingMap db u) (userRatingMap db r.user)
        · rw [if_pos hsim] at h
          rcases ih h with h1 | h2
          · rcases List.mem_append.mp h1 with ha | hb
            · exact Or.inl ha
            · rw [List.mem_singleton] at hb
              subst hb
              exact Or.inr ⟨rfl, hc, hsim⟩
          · exact Or.inr h2
        · rw [if_neg hsim] at h
          exact ih h
      · rw [if_neg hc] at h
        exact ih h

/-- C4: each collected similar-user pair carries exactly the mean-based
similarity `1 - |score_a - score_b| / 4` over the common movies and at
least two common movies; pairs with fewer than two common movies never
enter the candidate-neighbour set; and identical rating maps over ≥ 2
common movies give similarity exactly 1. -/
theorem c4_pairwise_similarity (db : DB) (u : Nat) :
    (∀ p ∈ similarUsers db u,
        p.2 = similarity (userRatingMap db u) (userRatingMap db p.1) ∧
        2 ≤ (commonMovies (userRatingMap db u) (userRatingMap db p.1)).length) ∧
    (∀ v : Nat, (commonMovies (userRatingMap db u) (userRatingMap db v)).length < 2 →
        ¬ v ∈ (similarUsers db u).map (fun p => p.1)) ∧
    (∀ a b : List (Nat × ℚ),
        (∀ mid ∈ commonMovies a b, ratLookup a mid = ratLookup b mid) →
        2 ≤ (commonMovies a b).length → similarity a b = 1) := by
  refine ⟨?_, ?_, fun a b h h2 => similarity_one h h2⟩
  · intro p hp
    rcases similarUsersAux_mem hp with h1 | h2
    · simp at h1
    · exact ⟨h2.1, h2.2.1⟩
  · intro v hv hmem
    rw [List.mem_map] at hmem
    obtain ⟨p, hp, rfl⟩ := hmem
    rcases similarUsersAux_mem hp with h1 | h2
    · simp at h1
    · omega

theorem c4_witness :
    (¬ (7 : Nat) ∈ (similarUsers demoDB4 1).map (fun p => p.1)) ∧
    similarity [((10 : Nat), (3 : ℚ)), (20, 5)] [(10, 3), (20, 5)] = 1 :=
  ⟨(c4_pairwise_similarity demoDB4 1).2.1 7 (by decide),
   (c4_pairwise_similarity demoDB4 1).2.2 [(10, 3), (20, 5)] [(10, 3), (20, 5)]
     (by decide) (by decide)⟩

/-- C5: an authenticated user with fewer than 3 ratings gets exactly the
genre-based output from collaborative filtering (views.py lines 146-149
return before the similarity scan). -/
theorem c5_collaborative_fallback (db : DB) (u : Nat) (limit : Nat) (mr : ℚ)
    (h : (userRatings db u).length < 3) :
    collaborative_filtering db (some u) limit mr = genre_based db (some u) limit mr := by
  simp only [collaborative_filtering, if_pos h]

theorem c5_witness :
    collaborative_filtering demoDB4 (some 9) 10 0 = genre_based demoDB4 (some 9) 10 0 :=
  c5_collaborative_fallback demoDB4 9 10 0 (by decide)

/-- C6: an authenticated user with zero ratings and zero favorites gets
exactly the popularity output from `genre_based` (its genre Counter is
empty, views.py lines 105-106). -/
theorem c6_genre_equals_popularity (db : DB) (u : Nat) (limit : Nat) (mr : ℚ)
    (hr : userRatings db u = []) (hf : userFavorites db u = []) :
    genre_based db (some u) limit mr = popularity_based db limit mr := by
  have hall : ∀ r ∈ db.ratings, ¬ (decide (r.user = u)) = true := by
    intro r hrr
    exact List.filter_eq_nil_iff.mp hr r hrr
  have hhr : userHighRatings db u = [] := by
    rw [userHighRatings, List.filter_eq_nil_iff]
    intro r hrr
    have := hall r hrr
    simp only [decide_eq_true_eq] at this ⊢
    intro hcon
    exact this hcon.1
  have hgs : genreScores db u = [] := by
    rw [genreScores, hhr, hf]
    rfl
  simp only [genre_based, if_pos hgs]

theorem c6_witness :
    genre_based demoDB (some 42) 10 0 = popularity_based demoDB 10 0 :=
  c6_genre_equals_popularity demoDB 42 10 0 (by decide) (by decide)

/-- C2: every strategy, for every user (anonymous included), every
`limit ≥ 1` and every `min_rating`, returns at most `limit` entries,
only movies with `imdb_rating ≥ min_rating`, no movie id twice
(including after Hybrid's merge), and — the strategies being pure
functions of the snapshot — the same output on identical inputs. -/
theorem c2_strategy_invariants (db : DB)
    (hdb : (db.movies.map (fun m => m.id)).Nodup)
    (s : Strategy) (user : Option Nat) (limit : Nat) (hl : 1 ≤ limit) (mr : ℚ) :
    (runStrategy s db user limit mr).length ≤ limit ∧
    (∀ r ∈ runStrategy s db user limit mr, mr ≤ r.movie.imdb_rating) ∧
    ((runStrategy s db user limit mr).map (fun r => r.movie.id)).Nodup ∧
    runStrategy s db user limit mr = runStrategy s db user limit mr := by
  refine ⟨?_, ?_, ?_, rfl⟩
  · cases s
    case popularity => exact popularity_based_length db limit mr
    case genre => exact genre_based_length db user limit mr
    case collaborative => exact collaborative_filtering_length db user limit mr
    case content => exact content_based_length db user limit mr
    case hybrid => exact hybrid_recommendations_length db user hl mr
  · intro r hr
    cases s
    case popularity => exact (popularity_based_mem hr).1
    case genre => exact (genre_based_mem hr).1
    case collaborative => exact collaborative_filtering_mem hr
    case content => exact content_based_mem hr
    case hybrid => exact hybrid_recommendations_mem hr
  · cases s
    case popularity => exact popularity_based_nodup hdb limit mr
    case genre => exact genre_based_nodup hdb user limit mr
    case collaborative => exact collaborative_filtering_nodup hdb user limit mr
    case content => exact content_based_nodup hdb user limit mr
    case hybrid => exact hybrid_recommendations_nodup db user limit mr hdb

theorem c2_witness :
    (runStrategy Strategy.hybrid demoDB (some 1) 10 0).length ≤ 10 ∧
    ((runStrategy Strategy.hybrid demoDB (some 1) 10 0).map (fun r => r.movie.id)).Nodup :=
  ⟨(c2_strategy_invariants demoDB (by decide) Strategy.hybrid (some 1) 10 (by decide) 0).1,
   (c2_strategy_invariants demoDB (by decide) Strategy.hybrid (some 1) 10
     (by decide) 0).2.2.1⟩

/-- C3: the claim states that when the cached path of
`GET /recommendations/for-me` fails the handler degrades to direct
computation and still answers 200.  On the code both the cached path's
`query_func` and the direct fallback call
`engine.get_*_recommendations(...)`, methods `RecommendationEngine` does
not define, so on any cache miss the fallback raises `AttributeError`
and the request ends in HTTP 500 instead. -/
theorem c3_fallback_returns_500 (db : DB) (c : Cache) (uid : Nat) (a : Strategy)
    (limit : Nat) (mr : ℚ)
    (hmiss : cacheGet c (recCacheKey uid a limit mr) = none) :
    (userRecommendationsGet db c uid a limit mr).1 = HttpResp.serverError := by
  rw [userRecommendationsGet, get_user_recommendations, cached_query, hmiss]
  cases a <;> rfl

theorem c3_witness :
    (userRecommendationsGet demoDB [] 1 Strategy.popularity 10 0).1 =
      HttpResp.serverError :=
  c3_fallback_returns_500 demoDB [] 1 Strategy.popularity 10 0 rfl

/-- C9 counterexample: the claim asserts non-increasing scores for every
strategy including Hybrid, but Hybrid concatenates its popularity and
genre sub-lists without re-sorting (views.py lines 302-316): on this
snapshot the hybrid list scores are `[10, 50]`. -/
theorem c9_counterexample :
    ¬ ((hybrid_recommendations demoDB (some 1) 10 0).map (fun r => r.score)).Pairwise
        (fun a b => b ≤ a) := by decide

/-- C9 amended: scores are non-increasing within the result list of the
popularity, genre, collaborative and content strategies (each sorts by
its score key, and every fallback target does too); Hybrid's merged list
is exempt. -/
theorem c9_scores_sorted (db : DB) (user : Option Nat) (limit : Nat) (mr : ℚ)
    (s : Strategy) (hs : ¬ s = Strategy.hybrid) :
    ((runStrategy s db user limit mr).map (fun r => r.score)).Pairwise
      (fun a b => b ≤ a) := by
  cases s
  case popularity => exact popularity_based_scores_sorted db limit mr
  case genre => exact genre_based_scores_sorted db user limit mr
  case collaborative => exact collaborative_filtering_scores_sorted db user limit mr
  case content => exact content_based_scores_sorted db user limit mr
  case hybrid => exact absurd rfl hs

theorem c9_witness :
    ((runStrategy Strategy.genre demoDB (some 1) 10 0).map (fun r => r.score)).Pairwise
      (fun a b => b ≤ a) :=
  c9_scores_sorted demoDB (some 1) 10 0 Strategy.genre (by decide)

theorem cached_query_invoked {c : Cache} {key : String}
    {f : Unit → Except DjangoError CVal} (h : cacheGet c key = none) :
    (cached_query c key f).invokedQuery = true := by
  rw [cached_query, h]
  cases hfe : f () <;> simp [hfe]

/-- C7 counterexample: the claim requires every Favorite (and
WatchHistory) mutation to invalidate the affected movie's
popularity/trending cache entries, but the Favorite receiver
(cache_utils.py lines 359-364) only invalidates the user-side caches: a
`movies_popular` entry survives a favorite change untouched. -/
theorem c7_counterexample :
    invalidate_favorite_cache_on_change
        [("movies_popular:20", CVal.movieList [])] 1 5 =
      [("movies_popular:20", CVal.movieList [])] := by decide

/-- C7 amended: a Rating change invalidates both the acting user's
recommendation entries (all algorithms) and the movie-side
popularity/trending entries; a Favorite or WatchHistory change
invalidates the acting user's recommendation entries only.  In each case
a subsequent identical for-me request misses the cache and re-invokes
its query function. -/
theorem c7_invalidation (c : Cache) (uid : Nat) (movieId : Nat) (db : DB)
    (a : Strategy) (limit : Nat) (mr : ℚ) :
    (∀ kv ∈ invalidate_rating_cache_on_change c uid movieId,
        ¬ ("recommendations:" ++ toString uid).toList <:+: kv.1.toList ∧
        ¬ ("movies_popular").toList <:+: kv.1.toList ∧
        ¬ ("movies_trending").toList <:+: kv.1.toList) ∧
    (∀ kv ∈ invalidate_favorite_cache_on_change c uid movieId,
        ¬ ("recommendations:" ++ toString uid).toList <:+: kv.1.toList) ∧
    (∀ kv ∈ invalidate_watch_history_cache_on_change c uid movieId,
        ¬ ("recommendations:" ++ toString uid).toList <:+: kv.1.toList) ∧
    (get_user_recommendations db (invalidate_rating_cache_on_change c uid movieId)
        uid a limit mr).invokedQuery = true ∧
    (get_user_recommendations db (invalidate_favorite_cache_on_change c uid movieId)
        uid a limit mr).invokedQuery = true ∧
    (get_user_recommendations db (invalidate_watch_history_cache_on_change c uid movieId)
        uid a limit mr).invokedQuery = true := by
  refine ⟨?_, ?_, ?_, ?_, ?_, ?_⟩
  · intro kv hkv
    rw [invalidate_rating_cache_on_change, invalidate_user_recommendations] at hkv
    obtain ⟨hkv1, hrec⟩ := invalidate_pattern_mem hkv
    rw [invalidate_user_cache] at hkv1
    obtain ⟨hkv2, _⟩ := foldl_invalidate_mem _ _ hkv1
    rw [invalidate_movie_cache] at hkv2
    obtain ⟨_, hmov⟩ := foldl_invalidate_mem _ _ hkv2
    refine ⟨hrec, ?_, ?_⟩
    · exact hmov "movies_popular" (List.mem_cons_self _ _)
    · exact hmov "movies_trending"
        (List.mem_cons_of_mem _ (List.mem_cons_self _ _))
  · intro kv hkv
    rw [invalidate_favorite_cache_on_change, invalidate_user_recommendations] at hkv
    exact (invalidate_pattern_mem hkv).2
  · intro kv hkv
    rw [invalidate_watch_history_cache_on_change, invalidate_user_recommendations] at hkv
    exact (invalidate_pattern_mem hkv).2
  · apply cached_query_invoked
    rw [invalidate_rating_cache_on_change, invalidate_user_recommendations, recCacheKey]
    exact cacheGet_invalidate_prefix _ _ _
  · apply cached_query_invoked
    rw [invalidate_favorite_cache_on_change, invalidate_user_recommendations, recCacheKey]
    exact cacheGet_invalidate_prefix _ _ _
  · apply cached_query_invoked
    rw [invalidate_watch_history_cache_on_change, invalidate_user_recommendations,
      recCacheKey]
    exact cacheGet_invalidate_prefix _ _ _

theorem c7_witness :
    (get_user_recommendations demoDB
        (invalidate_favorite_cache_on_change
          [("movies_popular:20", CVal.movieList [])] 1 5)
        1 Strategy.hybrid 10 0).invokedQuery = true :=
  (c7_invalidation [("movies_popular:20", CVal.movieList [])] 1 5 demoDB
    Strategy.hybrid 10 0).2.2.2.2.1

/-- C8: the claim states that of two consecutive identical
recommendation requests the second is served from the cache without
re-invoking the strategy.  On the code the cached path's `query_func`
calls `engine.get_popularity_based_recommendations(...)`, which
`RecommendationEngine` does not define, so the first request raises,
nothing is cached, and the second request invokes the query function
again instead of being served from the cache. -/
theorem c8_second_request_not_cached :
    (get_user_recommendations demoDB [] 1 Strategy.popularity 10 0).result =
      Except.error
        (DjangoError.attributeError "RecommendationEngine"
          "get_popularity_based_recommendations") ∧
    (get_user_recommendations demoDB [] 1 Strategy.popularity 10 0).invokedQuery = true ∧
    (get_user_recommendations demoDB [] 1 Strategy.popularity 10 0).cache = [] ∧
    (get_user_recommendations demoDB
        (get_user_recommendations demoDB [] 1 Strategy.popularity 10 0).cache
        1 Strategy.popularity 10 0).invokedQuery = true :=
  ⟨rfl, rfl, rfl, rfl⟩

theorem similarGenrePart_nodup {db : DB}
    (hdb : (db.movies.map (fun m => m.id)).Nodup) (target : Movie) (limit : Nat) :
    ((similarGenrePart db target limit).map (fun r => r.movie.id)).Nodup := by
  rw [similarGenrePart, List.map_map]
  exact moviePipeline_nodup hdb _ _ limit

/-- C10: for `method=combined`, the lookup fails with NotFound exactly
when the target movie id does not exist; on success the target itself is
excluded, no movie id occurs twice (genre and tag candidates united
without duplication), any entry whose movie is among the genre
candidates is the genre entry scored by the shared-genre count (genre
priority), and any entry sharing no tag with the target — the
three-genres-zero-tags movie in particular — is ranked by its
genre-overlap count alone; a target with zero tags is handled (its tag
block is skipped, not an error). -/
theorem c10_similar_movies (db : DB) (hdb : (db.movies.map (fun m => m.id)).Nodup)
    (movieId : Nat) (limit : Nat) :
    ((similar_movies_view db movieId SimMethod.combined limit).isOk = true ↔
        movieId ∈ db.movies.map (fun m => m.id)) ∧
    (∀ res, similar_movies_view db movieId SimMethod.combined limit = Except.ok res →
        (∀ r ∈ res, ¬ r.movie.id = movieId) ∧
        ((res.map (fun r => r.movie.id)).Nodup) ∧
        (∀ target ∈ db.movies, target.id = movieId →
          (∀ r ∈ res,
              r.movie.id ∈ (similarGenrePart db target limit).map (fun s => s.movie.id) →
              r.algorithm = "genre_similarity" ∧
              r.score = (commonGenreCount r.movie target : ℚ)) ∧
          (∀ r ∈ res,
              (r.movie.tags.filter (fun t => decide (t ∈ target.tags))).length = 0 →
              r.algorithm = "genre_similarity" ∧
              r.score = (commonGenreCount r.movie target : ℚ)))) := by
  cases hfind : db.movies.find? (fun m => decide (m.id = movieId)) with
  | none =>
    have hview : similar_movies_view db movieId SimMethod.combined limit =
        Except.error ViewErr.notFound := by
      simp only [similar_movies_view, hfind]
    have hnomem : ¬ movieId ∈ db.movies.map (fun m => m.id) := by
      intro hmem
      rw [List.mem_map] at hmem
      obtain ⟨m, hm, hid⟩ := hmem
      have := List.find?_eq_none.mp hfind m hm
      simp only [decide_eq_true_eq] at this
      exact this hid
    refine ⟨?_, ?_⟩
    · rw [hview]
      constructor
      · intro h
        simp [Except.isOk, Except.toBool] at h
      · intro h
        exact absurd h hnomem
    · intro res hres
      rw [hview] at hres
      exact absurd hres (by simp)
  | some target0 =>
    have htid : target0.id = movieId := by
      have := List.find?_some hfind
      simpa using this
    have htmem : target0 ∈ db.movies := List.mem_of_find?_eq_some hfind
    have hview : similar_movies_view db movieId SimMethod.combined limit =
        Except.ok ((sortDesc (fun r : Rec => r.score)
          (appendUnique (similarGenrePart db target0 limit)
            (similarTagPart db target0 limit))).take limit) := by
      simp only [similar_movies_view, hfind]
      rw [if_pos (Or.inr trivial), if_pos (Or.inr trivial)]
    refine ⟨?_, ?_⟩
    · constructor
      · intro _
        exact List.mem_map.mpr ⟨target0, htmem, htid⟩
      · intro _
        rw [hview]
        rfl
    · intro res hres
      rw [hview] at hres
      injection hres with hres'
      subst hres'
      have hmerged : ∀ r ∈ (sortDesc (fun r : Rec => r.score)
          (appendUnique (similarGenrePart db target0 limit)
            (similarTagPart db target0 limit))).take limit,
          r ∈ similarGenrePart db target0 limit ∨
            (r ∈ similarTagPart db target0 limit ∧
             ¬ r.movie.id ∈ (similarGenrePart db target0 limit).map
                (fun s => s.movie.id)) := by
        intro r hr
        have h1 := mem_sortDesc.mp (List.mem_of_mem_take hr)
        rcases appendUnique_mem h1 with h2 | ⟨h3, h4⟩
        · exact Or.inl h2
        · exact Or.inr ⟨h3, h4⟩
      refine ⟨?_, ?_, ?_⟩
      · intro r hr
        rcases hmerged r hr with hg | ⟨ht, _⟩
        · rw [← htid]
          exact (similarGenrePart_mem hg).2.1
        · rw [← htid]
          exact (similarTagPart_mem ht).2.1
      · have hgn := similarGenrePart_nodup hdb target0 limit
        have hall := appendUnique_nodup (l := similarTagPart db target0 limit) hgn
        have hperm := ((sortDesc_perm (fun r : Rec => r.score) _).map
          (fun r : Rec => r.movie.id)).nodup_iff.mpr hall
        exact hperm.sublist ((List.take_sublist _ _).map _)
      · intro target htmem2 htid2
        have : target = target0 :=
          List.inj_on_of_nodup_map hdb htmem2 htmem (by rw [htid2, htid])
        subst this
        refine ⟨?_, ?_⟩
        · intro r hr hrid
          rcases hmerged r hr with hg | ⟨_, hnot⟩
          · exact ⟨(similarGenrePart_mem hg).2.2.2, (similarGenrePart_mem hg).2.2.1⟩
          · exact absurd hrid hnot
        · intro r hr hnotags
          rcases hmerged r hr with hg | ⟨ht, _⟩
          · exact ⟨(similarGenrePart_mem hg).2.2.2, (similarGenrePart_mem hg).2.2.1⟩
          · exfalso
            obtain ⟨t, htag, htag2⟩ := (similarTagPart_mem ht).2.2.1
            have : t ∈ r.movie.tags.filter (fun t => decide (t ∈ target.tags)) :=
              List.mem_filter.mpr ⟨htag, by simpa using htag2⟩
            rw [List.length_eq_zero] at hnotags
            rw [hnotags] at this
            simp at this

theorem c10_witness :
    ((similar_movies_view demoDB 2 SimMethod.combined 10).isOk = true ↔
      2 ∈ demoDB.movies.map (fun m => m.id)) :=
  (c10_similar_movies demoDB (by decide) 2 10).1
